import Mathlib

/-!
# Verification of the zeusfi agent decision-and-execution engine

Shallow embedding of the decision engine (`apps/agent/engine.py`), the vault
executor (`apps/agent/executor.py`), the gas estimator (`apps/agent/gas.py`),
the pending-transaction monitor (`apps/agent/monitor.py`), the rebalance
record model (`apps/positions/models.py`) and the static chain/protocol
configuration (`config/chains.py`, `config/protocols.py`).

Python `Decimal` arithmetic and the few `float` computations are embedded
over `ℚ` (exact arithmetic); every comparison a claim depends on is far from
a rounding tie, so the embedding decides it the same way the program does.
Database and RPC effects are passed in as explicit environment parameters.
-/

namespace Zeusfi

/-- Python truthiness of an optional string: `None` and `""` are falsy. -/
def strTruthy : Option String → Bool
  | none => false
  | some s => s ≠ ""

/-- Python `str.lower()` (ASCII-faithful, character by character; the chain
and protocol names it is applied to are ASCII). -/
def lowerString (s : String) : String := ⟨s.data.map Char.toLower⟩

/-! ## config/chains.py -/

/-- `NAME_TO_CHAIN_ID` from `config/chains.py` (keys of `SUPPORTED_CHAINS`
mapped through their `name` fields: base 8453, arbitrum 42161, optimism 10). -/
def NAME_TO_CHAIN_ID (s : String) : Option Int :=
  if s = "base" then some 8453
  else if s = "arbitrum" then some 42161
  else if s = "optimism" then some 10
  else none

/-- `is_supported_chain` from `config/chains.py`: membership in the keys of
`SUPPORTED_CHAINS`. -/
def is_supported_chain (chain_id : Int) : Bool :=
  chain_id = 8453 ∨ chain_id = 42161 ∨ chain_id = 10

/-! ## config/protocols.py -/

/-- `USDC_ADDRESSES` from `config/protocols.py`. -/
def USDC_ADDRESSES (chain_id : Int) : Option String :=
  if chain_id = 8453 then some "0x833589fCD6eDb6E08f4c7C32D4f71b54bdA02913"
  else if chain_id = 42161 then some "0xaf88d065e77c8cC2239327C5EDb3A432268e5831"
  else if chain_id = 10 then some "0x0b2C639c533813f4Aa9D7837CAf62653d097Ff85"
  else none

/-- `MORPHO_VAULTS` from `config/protocols.py` (the Optimism entry is
literally `None` in the dict, which `.get` returns just like a missing key). -/
def MORPHO_VAULTS (chain_id : Int) : Option String :=
  if chain_id = 8453 then some "0xbeeF010f9cb27031ad51e3333f9aF9C6B1228183"
  else none

/-- `EULER_VAULTS` from `config/protocols.py`. -/
def EULER_VAULTS (chain_id : Int) : Option String :=
  if chain_id = 8453 then some "0x0A1a3b5f2041F33522C4efc754a7D096f880eE16"
  else if chain_id = 42161 then some "0x0a1eCC5Fe8C9be3C809844fcBe615B46A869b899"
  else none

/-- `AAVE_AUSDC` from `config/protocols.py`. -/
def AAVE_AUSDC (chain_id : Int) : Option String :=
  if chain_id = 8453 then some "0x4e65fE4DbA92790696d040ac24Aa414708F5c0AB"
  else if chain_id = 42161 then some "0x724dc807b04555b71ed48a6896b6F41593b8C637"
  else if chain_id = 10 then some "0x625E7708f30cA75bfd92586e17077590C60eb4cD"
  else none

/-- `get_deposit_token` from `config/protocols.py`. -/
def get_deposit_token (protocol : String) (chain_id : Int) : Option String :=
  if protocol = "aave-v3" then AAVE_AUSDC chain_id
  else if protocol = "morpho-v1" then MORPHO_VAULTS chain_id
  else if protocol = "euler-v2" then EULER_VAULTS chain_id
  else none

/-- `ENS_TO_DEFILLAMA_PROTOCOL` lookup from `config/protocols.py`. -/
def ENS_TO_DEFILLAMA_PROTOCOL (s : String) : Option String :=
  if s = "aave" ∨ s = "aave-v3" then some "aave-v3"
  else if s = "morpho" ∨ s = "morpho-v1" then some "morpho-v1"
  else if s = "euler" ∨ s = "euler-v2" then some "euler-v2"
  else none

/-- `map_ens_protocols` from `config/protocols.py`: keep the names present in
the alias table (lower-cased), mapped to DeFiLlama project names. -/
def map_ens_protocols (ens_protocols : List String) : List String :=
  ens_protocols.filterMap (fun p => ENS_TO_DEFILLAMA_PROTOCOL (lowerString p))

/-! ## Data model -/

/-- `YieldPool` (`apps/yields/models.py`), the fields the engine reads. -/
structure YieldPool where
  project : String
  chain : String
  chain_id : Int
  symbol : String
  apy : ℚ
  risk_score : Int
  contract_address : Option String
  deriving DecidableEq, Repr

/-- `Wallet` (`apps/wallets/models.py`), the ENS-preference fields the engine
reads. -/
structure Wallet where
  address : String
  ens_chains : List String
  ens_protocols : List String
  ens_min_apy : Option ℚ
  ens_max_risk : Option String
  ens_auto_rebalance : Bool
  deriving DecidableEq, Repr

/-- A `PositionInfo` dict as consumed by `should_rebalance`
(`current_positions` entries from `ContractReader`). -/
structure PositionInfo where
  protocol : String
  chain_id : Int
  amount : ℚ
  deriving DecidableEq, Repr

/-! ## apps/agent/engine.py — find_best_pool -/

/-- The `allowed_chain_ids` set built in `find_best_pool` step 1: every name
in `ens_chains` lower-cased and looked up in `NAME_TO_CHAIN_ID`; names that
resolve to nothing (or a falsy id) are skipped. -/
def allowedChainIds (names : List String) : List Int :=
  names.filterMap (fun n =>
    match NAME_TO_CHAIN_ID (lowerString n) with
    | some cid => if cid ≠ 0 then some cid else none
    | none => none)

/-- Step 1 of `find_best_pool`: chain filter. The filter is applied only when
`ens_chains` is truthy AND the resolved id set is truthy (non-empty). -/
def chainFilter (w : Wallet) (ps : List YieldPool) : List YieldPool :=
  if w.ens_chains.isEmpty then ps
  else if (allowedChainIds w.ens_chains).isEmpty then ps
  else ps.filter (fun p => p.chain_id ∈ allowedChainIds w.ens_chains)

/-- Step 2 of `find_best_pool`: protocol filter. -/
def protocolFilter (w : Wallet) (ps : List YieldPool) : List YieldPool :=
  if w.ens_protocols.isEmpty then ps
  else if (map_ens_protocols w.ens_protocols).isEmpty then ps
  else ps.filter (fun p => p.project ∈ map_ens_protocols w.ens_protocols)

/-- Step 3 of `find_best_pool`: minimum-APY filter. -/
def minApyFilter (w : Wallet) (ps : List YieldPool) : List YieldPool :=
  match w.ens_min_apy with
  | none => ps
  | some m => ps.filter (fun p => m ≤ p.apy)

/-- Step 4 of `find_best_pool`: the inclusive risk-score ceiling for the
wallet's `ens_max_risk` (falsy value defaults to "medium"). -/
def maxRiskScore (w : Wallet) : Int :=
  let tier := match w.ens_max_risk with
    | none => "medium"
    | some s => if s = "" then "medium" else s
  if tier = "low" then 3
  else if tier = "medium" then 6
  else 10

/-- Step 4 of `find_best_pool`: risk filter. -/
def riskFilter (w : Wallet) (ps : List YieldPool) : List YieldPool :=
  ps.filter (fun p => p.risk_score ≤ maxRiskScore w)

/-- Step 5 of `find_best_pool`: stable sort by APY descending, take the
first — i.e. the earliest pool whose APY no later pool strictly exceeds. -/
def pickBest : List YieldPool → Option YieldPool
  | [] => none
  | p :: ps =>
    match pickBest ps with
    | none => some p
    | some q => if p.apy < q.apy then some q else some p

/-- `find_best_pool` from `apps/agent/engine.py`. -/
def find_best_pool (pools : List YieldPool) (w : Wallet) : Option YieldPool :=
  pickBest (riskFilter w (minApyFilter w (protocolFilter w (chainFilter w
    (pools.filter (fun p => strTruthy p.contract_address))))))

/-! ## apps/agent/engine.py — should_rebalance -/

/-- The reason strings `should_rebalance` can return, as tags. -/
inductive Reason where
  | noPositions
  | idleDeploy
  | notOptedIn
  | idleBelowThreshold
  | noPositionsNoIdle
  | noDeployedValue
  | alreadyOptimal
  | improvementBelowThreshold
  | gasExceedsGain
  | rebalanceNow
  deriving DecidableEq, Repr

/-- The idle positions (`protocol == "wallet"`). -/
def idlePositions (positions : List PositionInfo) : List PositionInfo :=
  positions.filter (fun p => p.protocol = "wallet")

/-- The deployed positions (`protocol != "wallet"`). -/
def deployedPositions (positions : List PositionInfo) : List PositionInfo :=
  positions.filter (fun p => p.protocol ≠ "wallet")

/-- `total_idle = sum(Decimal(p["amount"]) for p in idle_positions)`. -/
def totalIdle (positions : List PositionInfo) : ℚ :=
  ((idlePositions positions).map (fun p => p.amount)).sum

/-- `total_value`: the sum of deployed-position amounts. -/
def totalDeployed (positions : List PositionInfo) : ℚ :=
  ((deployedPositions positions).map (fun p => p.amount)).sum

/-- `weighted_apy`: each deployed position contributes `amount * apy` of the
pool found by the `YieldPool.objects.filter(project, chain_id,
symbol icontains USDC).first()` lookup (embedded as `lookup`), and nothing
when no pool is found. -/
def weightedApy (lookup : String → Int → Option ℚ)
    (positions : List PositionInfo) : ℚ :=
  ((deployedPositions positions).map (fun p =>
    match lookup p.protocol p.chain_id with
    | some apy => p.amount * apy
    | none => 0)).sum

/-- `current_apy = weighted_apy / total_value`. -/
def currentApy (lookup : String → Int → Option ℚ)
    (positions : List PositionInfo) : ℚ :=
  weightedApy lookup positions / totalDeployed positions

/-- `should_rebalance` from `apps/agent/engine.py`. The DB pool lookup is an
explicit `lookup` parameter; the returned reason string is abstracted to its
tag. -/
def should_rebalance (positions : List PositionInfo) (best : YieldPool)
    (w : Wallet) (lookup : String → Int → Option ℚ)
    (threshold : ℚ) (gas_cost_usd : ℚ) : Bool × Reason :=
  if positions.isEmpty then (false, .noPositions)
  else if totalIdle positions > 1/10 then (true, .idleDeploy)
  else if ¬ w.ens_auto_rebalance then (false, .notOptedIn)
  else if (deployedPositions positions).isEmpty then
    if totalIdle positions > 0 then (false, .idleBelowThreshold)
    else (false, .noPositionsNoIdle)
  else if totalDeployed positions > 0 then
    if (deployedPositions positions).any (fun p =>
        p.protocol = best.project ∧ p.chain_id = best.chain_id) then
      (false, .alreadyOptimal)
    else if best.apy - currentApy lookup positions < threshold then
      (false, .improvementBelowThreshold)
    else if gas_cost_usd > 0 ∧ totalDeployed positions > 0 then
      if (best.apy - currentApy lookup positions) / 100 * totalDeployed positions
          * (30 / 365) < gas_cost_usd then
        (false, .gasExceedsGain)
      else (true, .rebalanceNow)
    else (true, .rebalanceNow)
  else (false, .noDeployedValue)

/-! ## apps/positions/models.py — RebalanceHistory -/

/-- `RebalanceHistory.Status` choices. -/
inductive RStatus where
  | pending
  | submitted
  | success
  | failed
  deriving DecidableEq, Repr

/-- A `RebalanceHistory` record, the fields touched by the `mark_*` methods
and the monitor. Times are seconds. -/
structure RRecord where
  status : RStatus
  tx_hash : Option String
  error_message : Option String
  to_chain_id : Int
  created_at : Nat
  completed_at : Option Nat
  deriving DecidableEq, Repr

/-- `RebalanceHistory.mark_submitted`: sets `tx_hash` and sets status to
`SUBMITTED` unconditionally (no guard on the current status). -/
def mark_submitted (r : RRecord) (h : String) : RRecord :=
  { r with tx_hash := some h, status := .submitted }

/-- `RebalanceHistory.mark_success`: sets status to `SUCCESS` and stamps
`completed_at`, unconditionally. -/
def mark_success (now : Nat) (r : RRecord) : RRecord :=
  { r with status := .success, completed_at := some now }

/-- `RebalanceHistory.mark_failed`: sets status to `FAILED`, records the
error and stamps `completed_at`, unconditionally. -/
def mark_failed (now : Nat) (error : String) (r : RRecord) : RRecord :=
  { r with status := .failed, error_message := some error,
           completed_at := some now }

/-! ## apps/agent/monitor.py -/

/-- Chain-side environment of one monitor run: receipt lookup by tx hash
(`some true` = status 1, `some false` = status 0, `none` = the lookup raised,
i.e. no receipt yet). -/
structure ChainEnv where
  receipt : String → Option Bool

/-- `STUCK_TX_THRESHOLD` = 30 minutes, in seconds. -/
def STUCK_TX_THRESHOLD : Nat := 30 * 60

/-- The monitor's selection predicate: status `PENDING` or `SUBMITTED` and
`created_at < now - 10 minutes`. -/
def monitorSelects (now : Nat) (r : RRecord) : Bool :=
  (r.status = .pending ∨ r.status = .submitted) ∧ r.created_at + 600 < now

/-- The per-entry body of `check_pending_transactions`: resolve by receipt
when a tx hash exists (skipping unsupported chains), otherwise fail the
record once it is older than the stuck threshold. -/
def monitorStep (env : ChainEnv) (now : Nat) (r : RRecord) : RRecord :=
  match r.tx_hash with
  | some h =>
    if is_supported_chain r.to_chain_id then
      match env.receipt h with
      | some true => mark_success now r
      | some false => mark_failed now "Transaction reverted on-chain" r
      | none =>
        if STUCK_TX_THRESHOLD < now - r.created_at then
          mark_failed now "Transaction stuck: no receipt" r
        else r
    else r
  | none =>
    if STUCK_TX_THRESHOLD < now - r.created_at then
      mark_failed now "No transaction hash after 30 minutes" r
    else r

/-- `check_pending_transactions` over a record store: each record in
`PENDING`/`SUBMITTED` older than the grace window is processed independently
by `monitorStep`; all other records are untouched. -/
def check_pending_transactions (env : ChainEnv) (now : Nat)
    (records : List RRecord) : List RRecord :=
  records.map (fun r => if monitorSelects now r then monitorStep env now r else r)

/-! ## apps/agent/gas.py -/

/-- Environment of one gas estimate: whether the RPC gas-price read succeeds
and at what price, and whether the live ETH-price fetch succeeds and at what
price. -/
structure GasEnv where
  rpcOk : Bool
  gasPriceWei : ℚ
  ethPriceOk : Bool
  ethLivePrice : ℚ

/-- `FALLBACK_ETH_PRICE_USD`. -/
def FALLBACK_ETH_PRICE_USD : ℚ := 2500

/-- `get_eth_price_usd`: live price on success, static fallback on failure
(the cache is one environment read here). -/
def get_eth_price_usd (e : GasEnv) : ℚ :=
  if e.ethPriceOk then e.ethLivePrice else FALLBACK_ETH_PRICE_USD

/-- `estimate_rebalance_gas_cost` from `apps/agent/gas.py`: unknown chain →
0.0; RPC failure → conservative 1.0; otherwise
`gas_price_wei / 1e18 * gas_units * eth_price`. -/
def estimate_rebalance_gas_cost (e : GasEnv) (chain_id : Int)
    (is_cross_chain : Bool) : ℚ :=
  if is_supported_chain chain_id then
    let gas_units : ℚ := if is_cross_chain then 600000 else 300000
    if e.rpcOk then
      e.gasPriceWei / 10 ^ 18 * gas_units * get_eth_price_usd e
    else 1
  else 0

/-! ## apps/agent/executor.py -/

/-- The external effects a `VaultExecutor` method performs, in order:
a LI.FI quote request, a `vault.executeStrategy(...)` transaction, a
`vault.redeemShares(...)` transaction, or a `vault.getBalance()` read. -/
inductive ExecAction where
  | lifiQuote (from_chain : Int) (from_token : String) (from_amount : Nat)
      (to_chain : Int) (to_token : String) (from_address : String)
  | executeStrategy (vault : String) (chain_id : Int)
      (approve_token : String) (approve_amount : Nat)
  | redeemShares (vault : String) (chain_id : Int)
      (protocol_vault : String) (shares : Nat)
  | readBalance (vault : String) (chain_id : Int)
  deriving DecidableEq, Repr

/-- `VaultExecutionError`, tagged by the `step` argument. -/
inductive ExecError where
  | configError
  | quoteError
  | executionError (step : String)
  deriving DecidableEq, Repr

/-- Outcome environment for one executor step: whether the LI.FI quote
carries a transaction request, whether the submitted transaction's receipt
has status 1, and the resulting hash. -/
structure StepEnv where
  quoteOk : Bool
  txOk : Bool
  txHash : String
  deriving DecidableEq, Repr

/-- `if not deposit_token: deposit_token = <fallback>` followed by
`if not deposit_token: raise`: a falsy caller value (None or "") defers to
the static config. -/
def resolveToken (given : Option String) (fallback : Option String) :
    Option String :=
  if strTruthy given then given else
    if strTruthy fallback then fallback else none

/-- `VaultExecutor.deploy_to_protocol`: quote USDC → deposit token on the
vault's own chain, then `executeStrategy(usdc, amount, calldata)`. Returns
the actions performed and the result. -/
def deploy_to_protocol (e : StepEnv) (vault_address : String)
    (chain_id : Int) (protocol : String) (amount_wei : Nat)
    (deposit_token : Option String) :
    List ExecAction × Except ExecError String :=
  match USDC_ADDRESSES chain_id,
        resolveToken deposit_token (get_deposit_token protocol chain_id) with
  | some usdc, some dt =>
    let quote := ExecAction.lifiQuote chain_id usdc amount_wei chain_id dt
      vault_address
    if e.quoteOk then
      if e.txOk then
        ([quote, .executeStrategy vault_address chain_id usdc amount_wei],
         .ok e.txHash)
      else
        ([quote, .executeStrategy vault_address chain_id usdc amount_wei],
         .error (.executionError "execute"))
    else ([quote], .error .quoteError)
  | _, _ => ([], .error .configError)

/-- `VaultExecutor.unwind_position`: ERC-4626 protocols (`morpho-v1`,
`euler-v2`) get a direct `redeemShares(protocol_vault, 0)` call (0 = redeem
all shares held by the vault); every other protocol (Aave) is routed through
LI.FI deposit-token → USDC and `executeStrategy`. -/
def unwind_position (e : StepEnv) (vault_address : String) (chain_id : Int)
    (protocol : String) (amount_wei : Nat) (deposit_token : Option String) :
    List ExecAction × Except ExecError String :=
  match resolveToken deposit_token (get_deposit_token protocol chain_id) with
  | none => ([], .error .configError)
  | some dt =>
    if protocol = "morpho-v1" ∨ protocol = "euler-v2" then
      if e.txOk then
        ([.redeemShares vault_address chain_id dt 0], .ok e.txHash)
      else
        ([.redeemShares vault_address chain_id dt 0],
         .error (.executionError "redeem"))
    else
      match USDC_ADDRESSES chain_id with
      | none => ([], .error .configError)
      | some usdc =>
        let quote := ExecAction.lifiQuote chain_id dt amount_wei chain_id usdc
          vault_address
        if e.quoteOk then
          if e.txOk then
            ([quote, .executeStrategy vault_address chain_id dt amount_wei],
             .ok e.txHash)
          else
            ([quote, .executeStrategy vault_address chain_id dt amount_wei],
             .error (.executionError "execute"))
        else ([quote], .error .quoteError)

/-- `VaultExecutor.rebalance`: unwind on the source chain, re-read the
vault's USDC balance (`getBalance()`, embedded as `vault_balance`), raise
`ExecutionError` when it is zero, otherwise deploy that re-read balance.
The deploy chain argument is transcribed literally:
`to_chain if from_chain == to_chain else from_chain`. -/
def rebalance (eUnwind eDeploy : StepEnv) (vault_balance : Nat)
    (from_vault : String) (from_chain : Int) (from_protocol : String)
    (to_chain : Int) (to_protocol : String) (amount_wei : Nat)
    (from_deposit_token to_deposit_token : Option String) :
    List ExecAction × Except ExecError String :=
  match (unwind_position eUnwind from_vault from_chain from_protocol
      amount_wei from_deposit_token).snd with
  | .error err =>
    ((unwind_position eUnwind from_vault from_chain from_protocol amount_wei
        from_deposit_token).fst, .error err)
  | .ok _ =>
    if vault_balance = 0 then
      ((unwind_position eUnwind from_vault from_chain from_protocol amount_wei
          from_deposit_token).fst ++
         [ExecAction.readBalance from_vault from_chain],
       .error (.executionError "rebalance"))
    else
      ((unwind_position eUnwind from_vault from_chain from_protocol amount_wei
          from_deposit_token).fst ++
         [ExecAction.readBalance from_vault from_chain] ++
         (deploy_to_protocol eDeploy from_vault
           (if from_chain = to_chain then to_chain else from_chain)
           to_protocol vault_balance to_deposit_token).fst,
       (deploy_to_protocol eDeploy from_vault
         (if from_chain = to_chain then to_chain else from_chain)
         to_protocol vault_balance to_deposit_token).snd)

/-! ## Helper predicates on executor actions -/

/-- The chain a given executor action is submitted on (for quotes, the
source chain of the quote request). -/
def actionChain : ExecAction → Int
  | .lifiQuote fc _ _ _ _ _ => fc
  | .executeStrategy _ c _ _ => c
  | .redeemShares _ c _ _ => c
  | .readBalance _ c => c

/-- An action that touches the LI.FI router: a quote request or an
`executeStrategy` call (which carries router calldata). -/
def isRouterAction : ExecAction → Bool
  | .lifiQuote _ _ _ _ _ _ => true
  | .executeStrategy _ _ _ _ => true
  | _ => false

/-- A native `redeemShares` call. -/
def isRedeemAction : ExecAction → Bool
  | .redeemShares _ _ _ _ => true
  | _ => false

/-- A native `redeemShares` call with `shares = 0`, i.e. redeem ALL shares
held by the vault. -/
def isRedeemAll : ExecAction → Bool
  | .redeemShares _ _ _ s => s = 0
  | _ => false

/-! ## Concrete instances used by counterexamples and witnesses -/

/-- A record that has already reached the terminal `SUCCESS` state. -/
def c1SuccessRecord : RRecord :=
  { status := .success, tx_hash := some "0xaaa", error_message := none,
    to_chain_id := 8453, created_at := 0, completed_at := some 900 }

/-- A usable pool on Base. -/
def c6Pool : YieldPool :=
  { project := "aave-v3", chain := "base", chain_id := 8453, symbol := "USDC",
    apy := 5, risk_score := 2, contract_address := some "0xa" }

/-- A wallet whose `ens_chains` is non-empty but resolves to no known
chain id. -/
def c6Wallet : Wallet :=
  { address := "0xw", ens_chains := ["solana"], ens_protocols := [],
    ens_min_apy := none, ens_max_risk := none, ens_auto_rebalance := true }

/-! ## Generic helper lemmas -/

theorem pickBest_mem {l : List YieldPool} {p : YieldPool}
    (h : pickBest l = some p) : p ∈ l := by
  induction l with
  | nil => simp [pickBest] at h
  | cons q l ih =>
    rw [pickBest] at h
    cases hl : pickBest l with
    | none => rw [hl] at h; simp at h; simp [h]
    | some r =>
      rw [hl] at h
      dsimp only at h
      by_cases hq : q.apy < r.apy
      · rw [if_pos hq] at h
        simp at h
        exact List.mem_cons_of_mem q (ih (h ▸ hl))
      · rw [if_neg hq] at h
        simp at h
        simp [h]

theorem protocolFilter_subset (w : Wallet) (ps : List YieldPool) :
    ∀ p ∈ protocolFilter w ps, p ∈ ps := by
  intro p hp
  unfold protocolFilter at hp
  split at hp
  · exact hp
  · split at hp
    · exact hp
    · exact List.mem_of_mem_filter hp

theorem chainFilter_subset (w : Wallet) (ps : List YieldPool) :
    ∀ p ∈ chainFilter w ps, p ∈ ps := by
  intro p hp
  unfold chainFilter at hp
  split at hp
  · exact hp
  · split at hp
    · exact hp
    · exact List.mem_of_mem_filter hp

theorem minApyFilter_subset (w : Wallet) (ps : List YieldPool) :
    ∀ p ∈ minApyFilter w ps, p ∈ ps := by
  intro p hp
  unfold minApyFilter at hp
  split at hp
  · exact hp
  · exact List.mem_of_mem_filter hp

theorem riskFilter_subset (w : Wallet) (ps : List YieldPool) :
    ∀ p ∈ riskFilter w ps, p ∈ ps := by
  intro p hp
  exact List.mem_of_mem_filter hp

theorem unwind_actions_chain (e : StepEnv) (v : String) (c : Int)
    (p : String) (amt : Nat) (dt : Option String) :
    ∀ a ∈ (unwind_position e v c p amt dt).fst, actionChain a = c := by
  intro a ha
  unfold unwind_position at ha
  split at ha
  · simp at ha
  · split at ha
    · split at ha <;> (simp at ha; simp [ha, actionChain])
    · split at ha
      · simp at ha
      · split at ha
        · split at ha <;>
            (simp at ha; rcases ha with ha | ha <;> simp [ha, actionChain])
        · simp at ha; simp [ha, actionChain]

theorem deploy_actions_chain (e : StepEnv) (v : String) (c : Int)
    (p : String) (amt : Nat) (dt : Option String) :
    ∀ a ∈ (deploy_to_protocol e v c p amt dt).fst, actionChain a = c := by
  intro a ha
  unfold deploy_to_protocol at ha
  split at ha
  · split at ha
    · split at ha <;>
        (simp at ha; rcases ha with ha | ha <;> simp [ha, actionChain])
    · simp at ha; simp [ha, actionChain]
  · simp at ha

/-! ## Claim C1 — RebalanceHistory status lifecycle -/

/-- C1 counterexample: `mark_submitted` called on a record whose status is
`SUCCESS` moves it back to `SUBMITTED` — the claimed backward-transition
impossibility fails, since the `mark_*` methods carry no status guard. -/
theorem mark_submitted_reverses_terminal_status :
    c1SuccessRecord.status = RStatus.success ∧
    (mark_submitted c1SuccessRecord "0xbbb").status = RStatus.submitted :=
  ⟨rfl, rfl⟩

/-- C1 amended: each `mark_*` method sets its fixed target status
unconditionally, regardless of the record's current status — so the
forward-only lifecycle `PENDING → SUBMITTED → {SUCCESS|FAILED}` holds only
when callers invoke the methods in that order, and is not enforced by the
record itself. -/
theorem mark_methods_set_status_unconditionally (r : RRecord) (h : String)
    (now : Nat) (err : String) :
    (mark_submitted r h).status = RStatus.submitted ∧
    (mark_success now r).status = RStatus.success ∧
    (mark_failed now err r).status = RStatus.failed :=
  ⟨rfl, rfl, rfl⟩

/-! ## Claim C4 — idle funds above dust are always deployed -/

/-- C4: whenever the idle (protocol = "wallet") positions sum to strictly
more than 0.10 base-token units, `should_rebalance` returns
`should_move = True` with the idle-deploy reason, for every best pool,
wallet preference set (including `auto_rebalance` disabled), threshold and
gas cost. -/
theorem idle_funds_always_deployed (positions : List PositionInfo)
    (best : YieldPool) (w : Wallet) (lookup : String → Int → Option ℚ)
    (threshold gas_cost_usd : ℚ)
    (h : totalIdle positions > 1/10) :
    should_rebalance positions best w lookup threshold gas_cost_usd =
      (true, Reason.idleDeploy) := by
  have hne : positions.isEmpty = false := by
    cases positions with
    | nil => norm_num [totalIdle, idlePositions] at h
    | cons a l => rfl
  unfold should_rebalance
  rw [if_neg (by simp [hne]), if_pos h]

/-- Concrete instantiation of `idle_funds_always_deployed`: a single idle
position of 0.5 USDC, auto-rebalance disabled, gas cost 7. -/
theorem idle_funds_always_deployed_witness :
    totalIdle [⟨"wallet", 8453, 1/2⟩] > 1/10 ∧
    should_rebalance [⟨"wallet", 8453, 1/2⟩]
      ⟨"aave-v3", "base", 8453, "USDC", 5, 2, some "0xa"⟩
      ⟨"0xw", [], [], none, none, false⟩ (fun _ _ => none) 1 7 =
      (true, Reason.idleDeploy) :=
  ⟨by norm_num [totalIdle, idlePositions],
   idle_funds_always_deployed _ _ _ _ _ _
     (by norm_num [totalIdle, idlePositions])⟩

/-! ## Claim C10 — unknown chain yields zero gas cost, skipping the check -/

/-- C10: for a chain id outside `SUPPORTED_CHAINS`,
`estimate_rebalance_gas_cost` returns exactly 0 (not a conservative
default), for both values of `is_cross_chain`; and `should_rebalance` with
`gas_cost_usd = 0` can never return the gas-exceeds-gain reason, so the
cost/benefit check is silently skipped for such chains. -/
theorem unknown_chain_gas_zero_skips_check (e : GasEnv) (chain_id : Int)
    (cc : Bool) (h : is_supported_chain chain_id = false) :
    estimate_rebalance_gas_cost e chain_id cc = 0 ∧
    ∀ (positions : List PositionInfo) (best : YieldPool) (w : Wallet)
      (lookup : String → Int → Option ℚ) (threshold : ℚ),
      (should_rebalance positions best w lookup threshold 0).snd ≠
        Reason.gasExceedsGain := by
  constructor
  · unfold estimate_rebalance_gas_cost
    rw [if_neg (by simp [h])]
  · intro positions best w lookup threshold
    unfold should_rebalance
    repeat' split
    all_goals simp_all

/-- Concrete instantiation of `unknown_chain_gas_zero_skips_check` at
Ethereum mainnet (chain id 1), which is not a supported vault chain. -/
theorem unknown_chain_gas_zero_skips_check_witness :
    is_supported_chain 1 = false ∧
    estimate_rebalance_gas_cost ⟨true, 20000000000, false, 0⟩ 1 true = 0 ∧
    (should_rebalance [⟨"aave-v3", 8453, 100⟩]
        ⟨"morpho-v1", "base", 8453, "USDC", 9, 4, some "0xb"⟩
        ⟨"0xw", [], [], none, none, true⟩ (fun _ _ => some 4) 1 0).snd ≠
      Reason.gasExceedsGain := by
  have h := unknown_chain_gas_zero_skips_check ⟨true, 20000000000, false, 0⟩
    1 true (by decide)
  exact ⟨by decide, h.1, h.2 _ _ _ _ _⟩

/-! ## Claim C7 — identity check precedes the improvement threshold -/

/-- C7: with no idle funds above the dust threshold and auto-rebalance
enabled, a deployed position whose (protocol, chain) pair equals
`best_pool`'s makes `should_rebalance` hold, whatever the APYs are — and
when the deployed value is positive the reason is exactly "already
optimal", reached before the improvement-threshold check. -/
theorem already_in_best_pool_holds (positions : List PositionInfo)
    (best : YieldPool) (w : Wallet) (lookup : String → Int → Option ℚ)
    (threshold gas_cost_usd : ℚ)
    (hidle : ¬ totalIdle positions > 1/10)
    (hauto : w.ens_auto_rebalance = true)
    (p : PositionInfo) (hp : p ∈ positions) (hdep : p.protocol ≠ "wallet")
    (hproj : p.protocol = best.project) (hchain : p.chain_id = best.chain_id) :
    (should_rebalance positions best w lookup threshold gas_cost_usd).fst =
      false ∧
    (totalDeployed positions > 0 →
      should_rebalance positions best w lookup threshold gas_cost_usd =
        (false, Reason.alreadyOptimal)) := by
  have hpd : p ∈ deployedPositions positions := by
    simp [deployedPositions, List.mem_filter, hp, hdep]
  have hne : positions.isEmpty = false := by
    cases positions with
    | nil => simp at hp
    | cons a l => rfl
  have hdne : (deployedPositions positions).isEmpty = false := by
    cases hd : deployedPositions positions with
    | nil => rw [hd] at hpd; simp at hpd
    | cons a l => rfl
  have hany : ((deployedPositions positions).any (fun q =>
      q.protocol = best.project ∧ q.chain_id = best.chain_id)) = true := by
    rw [List.any_eq_true]
    exact ⟨p, hpd, by simp [hproj, hchain]⟩
  have hmain : ∀ htot : totalDeployed positions > 0,
      should_rebalance positions best w lookup threshold gas_cost_usd =
        (false, Reason.alreadyOptimal) := by
    intro htot
    unfold should_rebalance
    rw [if_neg (by simp [hne]), if_neg hidle, if_neg (by simp [hauto]),
      if_neg (by simp [hdne]), if_pos htot, if_pos hany]
  constructor
  · by_cases htot : totalDeployed positions > 0
    · rw [hmain htot]
    · unfold should_rebalance
      rw [if_neg (by simp [hne]), if_neg hidle, if_neg (by simp [hauto]),
        if_neg (by simp [hdne]), if_neg htot]
  · exact hmain

/-- Concrete instantiation of `already_in_best_pool_holds`: one deployed
position in aave-v3 on Base, best pool also aave-v3 on Base but with a much
higher APY. -/
theorem already_in_best_pool_holds_witness :
    should_rebalance [⟨"aave-v3", 8453, 500⟩]
      ⟨"aave-v3", "base", 8453, "USDC", 50, 2, some "0xa"⟩
      ⟨"0xw", [], [], none, none, true⟩ (fun _ _ => some 3) 1 0 =
      (false, Reason.alreadyOptimal) :=
  (already_in_best_pool_holds [⟨"aave-v3", 8453, 500⟩]
      ⟨"aave-v3", "base", 8453, "USDC", 50, 2, some "0xa"⟩
      ⟨"0xw", [], [], none, none, true⟩ (fun _ _ => some 3) 1 0
      (by simp [totalIdle, idlePositions] <;> norm_num) rfl
      ⟨"aave-v3", 8453, 500⟩ (by simp) (by simp) rfl rfl).2
    (by simp [totalDeployed, deployedPositions] <;> norm_num)

/-! ## Claim C5 — 30-day yield gain versus gas cost -/

/-- C5: once control reaches the gas check (deployed positions exist with
positive total value, no position already matches the best pool, the APY
improvement meets the threshold, and `gas_cost_usd > 0`), the decision is
exactly: hold with "gas exceeds gain" when
`(apy_improvement/100) * total_deployed * (30/365) < gas_cost_usd`, move
otherwise. The Python `float` arithmetic of this branch is embedded as
exact rational arithmetic. -/
theorem gas_check_is_thirty_day_projection (positions : List PositionInfo)
    (best : YieldPool) (w : Wallet) (lookup : String → Int → Option ℚ)
    (threshold gas_cost_usd : ℚ)
    (hidle : ¬ totalIdle positions > 1/10)
    (hauto : w.ens_auto_rebalance = true)
    (hdne : (deployedPositions positions).isEmpty = false)
    (htot : totalDeployed positions > 0)
    (hnomatch : ((deployedPositions positions).any (fun q =>
      q.protocol = best.project ∧ q.chain_id = best.chain_id)) = false)
    (hthr : ¬ best.apy - currentApy lookup positions < threshold)
    (hgas : gas_cost_usd > 0) :
    should_rebalance positions best w lookup threshold gas_cost_usd =
      if (best.apy - currentApy lookup positions) / 100 *
          totalDeployed positions * (30 / 365) < gas_cost_usd then
        (false, Reason.gasExceedsGain)
      else (true, Reason.rebalanceNow) := by
  have hne : positions.isEmpty = false := by
    cases hps : positions with
    | nil =>
      rw [hps] at hdne
      simp [deployedPositions] at hdne
    | cons a l => rfl
  unfold should_rebalance
  rw [if_neg (by simp [hne]), if_neg hidle, if_neg (by simp [hauto]),
    if_neg (by simp [hdne]), if_pos htot,
    if_neg (by rw [hnomatch]; exact Bool.false_ne_true),
    if_neg hthr, if_pos ⟨hgas, htot⟩]

/-- Concrete instantiation of `gas_check_is_thirty_day_projection` with the
spec's own numbers: current APY 4.0, best APY 6.0, threshold 1.0, total
deployed 1000 — projected gain 600/365 ≈ 1.64, so gas 10 holds and gas 1
moves. -/
theorem gas_check_witness :
    should_rebalance [⟨"morpho-v1", 8453, 1000⟩]
      ⟨"aave-v3", "arbitrum", 42161, "USDC", 6, 2, some "0xa"⟩
      ⟨"0xw", [], [], none, none, true⟩
      (fun p c => if p = "morpho-v1" ∧ c = 8453 then some 4 else none) 1 10 =
      (false, Reason.gasExceedsGain) ∧
    should_rebalance [⟨"morpho-v1", 8453, 1000⟩]
      ⟨"aave-v3", "arbitrum", 42161, "USDC", 6, 2, some "0xa"⟩
      ⟨"0xw", [], [], none, none, true⟩
      (fun p c => if p = "morpho-v1" ∧ c = 8453 then some 4 else none) 1 1 =
      (true, Reason.rebalanceNow) := by
  have h10 := gas_check_is_thirty_day_projection [⟨"morpho-v1", 8453, 1000⟩]
    ⟨"aave-v3", "arbitrum", 42161, "USDC", 6, 2, some "0xa"⟩
    ⟨"0xw", [], [], none, none, true⟩
    (fun p c => if p = "morpho-v1" ∧ c = 8453 then some 4 else none) 1 10
    (by simp [totalIdle, idlePositions] <;> norm_num) rfl
    (by simp [deployedPositions])
    (by simp [totalDeployed, deployedPositions] <;> norm_num)
    (by simp [deployedPositions])
    (by simp [currentApy, weightedApy, totalDeployed, deployedPositions] <;>
      norm_num)
    (by norm_num)
  have h1 := gas_check_is_thirty_day_projection [⟨"morpho-v1", 8453, 1000⟩]
    ⟨"aave-v3", "arbitrum", 42161, "USDC", 6, 2, some "0xa"⟩
    ⟨"0xw", [], [], none, none, true⟩
    (fun p c => if p = "morpho-v1" ∧ c = 8453 then some 4 else none) 1 1
    (by simp [totalIdle, idlePositions] <;> norm_num) rfl
    (by simp [deployedPositions])
    (by simp [totalDeployed, deployedPositions] <;> norm_num)
    (by simp [deployedPositions])
    (by simp [currentApy, weightedApy, totalDeployed, deployedPositions] <;>
      norm_num)
    (by norm_num)
  rw [h10, h1]
  constructor
  · rw [if_pos (by
      simp [currentApy, weightedApy, totalDeployed, deployedPositions] <;>
        norm_num)]
  · rw [if_neg (by
      simp [currentApy, weightedApy, totalDeployed, deployedPositions] <;>
        norm_num)]

/-! ## Claim C6 — chain-preference filtering in find_best_pool -/

/-- C6 counterexample: with the non-empty preference `["solana"]` (an
unknown chain name), the resolved allowed set is empty, the chain filter is
skipped entirely, and `find_best_pool` returns a pool on Base — a chain
outside the resolved allowed set — contradicting the claim that no such
pool is ever returned while `allowed_chains` is non-empty. -/
theorem unknown_chain_names_skip_filter :
    c6Wallet.ens_chains ≠ [] ∧
    allowedChainIds c6Wallet.ens_chains = [] ∧
    find_best_pool [c6Pool] c6Wallet = some c6Pool ∧
    c6Pool.chain_id ∉ allowedChainIds c6Wallet.ens_chains := by
  refine ⟨by simp [c6Wallet], by decide, ?_, by decide⟩
  rfl

/-- C6 amended: whenever the resolved allowed-chain set (the `ens_chains`
names that map to known chain ids, case-insensitively) is NON-EMPTY, every
pool returned by `find_best_pool` is on one of the resolved chains; when
every listed name is unknown the chain filter is skipped and pools on any
chain may be returned. -/
theorem best_pool_on_allowed_chain (pools : List YieldPool) (w : Wallet)
    (p : YieldPool)
    (hresolved : allowedChainIds w.ens_chains ≠ [])
    (hfound : find_best_pool pools w = some p) :
    p.chain_id ∈ allowedChainIds w.ens_chains := by
  have hchains : w.ens_chains ≠ [] := by
    intro h
    rw [h] at hresolved
    exact hresolved rfl
  have hmem := pickBest_mem hfound
  have h4 := riskFilter_subset w _ _ hmem
  have h3 := minApyFilter_subset w _ _ h4
  have h2 := protocolFilter_subset w _ _ h3
  unfold chainFilter at h2
  rw [if_neg (by simp [hchains]), if_neg (by simp [hresolved])] at h2
  have := List.mem_filter.mp h2
  simpa using this.2

/-- Concrete instantiation of `best_pool_on_allowed_chain`: preference
`["Base"]` resolves to chain id 8453 and the returned pool is on 8453. -/
theorem best_pool_on_allowed_chain_witness :
    c6Pool.chain_id ∈
      allowedChainIds (Wallet.ens_chains
        ⟨"0xw", ["Base"], [], none, none, true⟩) :=
  best_pool_on_allowed_chain [c6Pool]
    ⟨"0xw", ["Base"], [], none, none, true⟩ c6Pool (by decide) (by rfl)

/-! ## Claim C8 — monitor reconciliation is idempotent on terminal records -/

/-- C8: running `check_pending_transactions` a second time on the output of
a first run (same chain state, same clock, no new records) maps every
record the first run left in a terminal state (`SUCCESS` or `FAILED`) to
itself, because only `PENDING`/`SUBMITTED` records older than the grace
window are ever selected or mutated. -/
theorem monitor_idempotent_on_terminal (env : ChainEnv) (now : Nat)
    (records : List RRecord) :
    List.Forall₂
      (fun r₁ r₂ => (r₁.status = RStatus.success ∨ r₁.status = RStatus.failed)
        → r₂ = r₁)
      (check_pending_transactions env now records)
      (check_pending_transactions env now
        (check_pending_transactions env now records)) := by
  generalize check_pending_transactions env now records = l
  induction l with
  | nil => exact List.Forall₂.nil
  | cons r l ih =>
    rw [check_pending_transactions, List.map_cons]
    refine List.Forall₂.cons ?_ ih
    intro hterm
    have hsel : monitorSelects now r = false := by
      unfold monitorSelects
      rcases hterm with h | h <;> simp [h]
    rw [if_neg (by rw [hsel]; exact Bool.false_ne_true)]

/-! ## Claim C2 — rebalance re-reads the vault balance before deploying -/

/-- C2: after a successful unwind, `rebalance` reads the vault's USDC
balance on-chain and the step-2 deploy is invoked with that re-read
balance — never with the caller-supplied `amount_wei`; a zero re-read
balance raises `ExecutionError` (step "rebalance") with no deploy action
performed. -/
theorem rebalance_rereads_vault_balance (e1 e2 : StepEnv) (bal : Nat)
    (fv : String) (fc : Int) (fp : String) (tc : Int) (tp : String)
    (amt : Nat) (fdt tdt : Option String) (h : String)
    (hok : (unwind_position e1 fv fc fp amt fdt).snd = Except.ok h) :
    rebalance e1 e2 bal fv fc fp tc tp amt fdt tdt =
      if bal = 0 then
        ((unwind_position e1 fv fc fp amt fdt).fst ++
           [ExecAction.readBalance fv fc],
         Except.error (ExecError.executionError "rebalance"))
      else
        ((unwind_position e1 fv fc fp amt fdt).fst ++
           [ExecAction.readBalance fv fc] ++
           (deploy_to_protocol e2 fv (if fc = tc then tc else fc) tp bal
             tdt).fst,
         (deploy_to_protocol e2 fv (if fc = tc then tc else fc) tp bal
           tdt).snd) := by
  unfold rebalance
  rw [hok]

/-- Concrete instantiation of `rebalance_rereads_vault_balance`: unwind of
aave-v3 on Base succeeds, the re-read balance is 55 (≠ caller amount 777),
and the deploy runs with 55. -/
theorem rebalance_rereads_vault_balance_witness :
    rebalance ⟨true, true, "0xh1"⟩ ⟨true, true, "0xh2"⟩ 55 "0xv" 8453
      "aave-v3" 42161 "morpho-v1" 777 none none =
      if (55 : Nat) = 0 then
        ((unwind_position ⟨true, true, "0xh1"⟩ "0xv" 8453 "aave-v3" 777
            none).fst ++ [ExecAction.readBalance "0xv" 8453],
         Except.error (ExecError.executionError "rebalance"))
      else
        ((unwind_position ⟨true, true, "0xh1"⟩ "0xv" 8453 "aave-v3" 777
            none).fst ++ [ExecAction.readBalance "0xv" 8453] ++
           (deploy_to_protocol ⟨true, true, "0xh2"⟩ "0xv"
             (if (8453 : Int) = 42161 then 42161 else 8453) "morpho-v1" 55
             none).fst,
         (deploy_to_protocol ⟨true, true, "0xh2"⟩ "0xv"
           (if (8453 : Int) = 42161 then 42161 else 8453) "morpho-v1" 55
           none).snd) :=
  rebalance_rereads_vault_balance ⟨true, true, "0xh1"⟩ ⟨true, true, "0xh2"⟩
    55 "0xv" 8453 "aave-v3" 42161 "morpho-v1" 777 none none "0xh1" (by rfl)

/-! ## Claim C3 — settlement shape of unwind_position -/

/-- C3: unwinding a share-settled protocol (`morpho-v1` or `euler-v2`)
performs only native `redeemShares` calls with `shares = 0` (redeem ALL)
and never touches the router; unwinding the swap-settled `aave-v3` never
calls native redeem, and on success its actions are exactly a router quote
deposit-token → USDC followed by `executeStrategy`. -/
theorem unwind_settlement_shape (e : StepEnv) (v : String) (c : Int)
    (protocol : String) (amt : Nat) (dt : Option String) :
    (protocol = "morpho-v1" ∨ protocol = "euler-v2" →
      ∀ a ∈ (unwind_position e v c protocol amt dt).fst,
        isRedeemAll a = true ∧ isRouterAction a = false) ∧
    (∀ a ∈ (unwind_position e v c "aave-v3" amt dt).fst,
      isRedeemAction a = false) ∧
    (∀ h, (unwind_position e v c "aave-v3" amt dt).snd = Except.ok h →
      ∃ dtok usdc, USDC_ADDRESSES c = some usdc ∧
        (unwind_position e v c "aave-v3" amt dt).fst =
          [ExecAction.lifiQuote c dtok amt c usdc v,
           ExecAction.executeStrategy v c dtok amt]) := by
  refine ⟨?_, ?_, ?_⟩
  · intro hp a ha
    unfold unwind_position at ha
    split at ha
    · simp at ha
    · rw [if_pos hp] at ha
      split at ha <;> (simp at ha; simp [ha, isRedeemAll, isRouterAction])
  · intro a ha
    unfold unwind_position at ha
    split at ha
    · simp at ha
    · rw [if_neg (by simp)] at ha
      split at ha
      · simp at ha
      · split at ha
        · split at ha <;>
            (simp at ha; rcases ha with ha | ha <;> simp [ha, isRedeemAction])
        · simp at ha; simp [ha, isRedeemAction]
  · intro h hok
    cases hdt : resolveToken dt (get_deposit_token "aave-v3" c) with
    | none =>
      unfold unwind_position at hok
      rw [hdt] at hok
      simp at hok
    | some dtok =>
      cases husdc : USDC_ADDRESSES c with
      | none =>
        unfold unwind_position at hok
        rw [hdt] at hok
        simp [husdc] at hok
      | some usdc =>
        by_cases hq : e.quoteOk
        · by_cases ht : e.txOk
          · refine ⟨dtok, usdc, rfl, ?_⟩
            unfold unwind_position
            rw [hdt]
            simp [husdc, hq, ht]
          · unfold unwind_position at hok
            rw [hdt] at hok
            simp [husdc, hq, ht] at hok
        · unfold unwind_position at hok
          rw [hdt] at hok
          simp [husdc, hq] at hok

/-- Concrete instantiation of `unwind_settlement_shape`: the morpho-v1
unwind on Base performs a `redeemShares(vault, 0)` call (redeem all) that
is not a router action. -/
theorem unwind_settlement_shape_witness :
    isRedeemAll (ExecAction.redeemShares "0xv" 8453
      "0xbeeF010f9cb27031ad51e3333f9aF9C6B1228183" 0) = true ∧
    isRouterAction (ExecAction.redeemShares "0xv" 8453
      "0xbeeF010f9cb27031ad51e3333f9aF9C6B1228183" 0) = false :=
  (unwind_settlement_shape ⟨true, true, "0xh"⟩ "0xv" 8453 "morpho-v1" 42
    none).1 (Or.inl rfl) _ (by decide)

/-! ## Claim C9 — the deploy leg never runs on the destination chain -/

/-- C9: every action of `rebalance` — including the step-2 deploy, whose
chain argument is the literal `to_chain if from_chain == to_chain else
from_chain` and therefore always `from_chain` — is submitted on the source
chain; in particular a cross-chain rebalance never submits the deploy on
the destination chain. -/
theorem rebalance_deploy_on_source_chain (e1 e2 : StepEnv) (bal : Nat)
    (fv : String) (fc : Int) (fp : String) (tc : Int) (tp : String)
    (amt : Nat) (fdt tdt : Option String) :
    ∀ a ∈ (rebalance e1 e2 bal fv fc fp tc tp amt fdt tdt).fst,
      actionChain a = fc := by
  intro a ha
  unfold rebalance at ha
  split at ha
  · exact unwind_actions_chain e1 fv fc fp amt fdt a ha
  · split at ha
    · rw [List.mem_append] at ha
      rcases ha with ha | ha
      · exact unwind_actions_chain e1 fv fc fp amt fdt a ha
      · simp at ha; simp [ha, actionChain]
    · rw [List.append_assoc, List.mem_append] at ha
      rcases ha with ha | ha
      · exact unwind_actions_chain e1 fv fc fp amt fdt a ha
      · rw [List.mem_append] at ha
        rcases ha with ha | ha
        · simp at ha; simp [ha, actionChain]
        · have hd := deploy_actions_chain e2 fv
            (if fc = tc then tc else fc) tp bal tdt a ha
          by_cases hfc : fc = tc
          · rw [if_pos hfc] at hd; rw [hfc]; exact hd
          · rw [if_neg hfc] at hd; exact hd

/-- Concrete instantiation of `rebalance_deploy_on_source_chain`: in a
cross-chain rebalance Base → Arbitrum, the balance read (like every other
action) happens on Base (8453), not 42161. -/
theorem rebalance_deploy_on_source_chain_witness :
    actionChain (ExecAction.readBalance "0xv" 8453) = 8453 :=
  rebalance_deploy_on_source_chain ⟨true, true, "0xh1"⟩ ⟨true, true, "0xh2"⟩
    5 "0xv" 8453 "morpho-v1" 42161 "aave-v3" 777 none none
    (ExecAction.readBalance "0xv" 8453) (by decide)

end Zeusfi
